import Mathlib

/-!
Verification of the Amravati Wears Market backend (Django) against its
natural-language specification.  The Python source is shallowly embedded:
Django model rows become Lean structures, `Decimal` money values become `Rat`
(the arithmetic used — addition, subtraction, multiplication, division by 100 —
is exact on decimals, hence faithfully represented by rationals), querysets
become lists, and fallible request handlers become `Except`-valued functions.
Every definition is translated from the repository source file named in its
doc comment.
-/

set_option autoImplicit false

namespace AmravatiWears

/-- Order lifecycle states, from `Order.ORDER_STATUS` in `orders/models.py`. -/
inductive OrderStatus where
  | placed
  | confirmed
  | shipped
  | delivered
  | cancelled
  deriving DecidableEq, Repr

/-- Coupon discount kinds, from `Coupon.DISCOUNT_TYPE_CHOICES` in `coupons/models.py`. -/
inductive DiscountType where
  | percentage
  | fixed
  deriving DecidableEq, Repr

/-- Coupon scopes, from `Coupon.APPLICABILITY_CHOICES` in `coupons/models.py`. -/
inductive Applicability where
  | all
  | category
  | product
  deriving DecidableEq, Repr

/-- A row of the `products` table (`Product` in `products/models.py`), restricted to
the fields the verified operations read or write.  `categoryId` is an `Option`
because the category foreign key is nullable (`on_delete=SET_NULL`). -/
structure Product where
  id : Nat
  shopId : Nat
  categoryId : Option Nat
  basePrice : Rat
  commissionRate : Rat
  displayPrice : Rat
  stockQuantity : Nat
  averageRating : Rat
  reviewCount : Nat
  isActive : Bool
  deriving DecidableEq, Repr

/-- A row of the `product_variants` table (`ProductVariant` in `products/models.py`). -/
structure ProductVariant where
  id : Nat
  productId : Nat
  size : Option String
  color : Option String
  stockQuantity : Nat
  isActive : Bool
  deriving DecidableEq, Repr

/-- The catalog portion of the relational store: the `products` and
`product_variants` tables. -/
structure Catalog where
  products : List Product
  variants : List ProductVariant
  deriving DecidableEq, Repr

/-- `Product.save` from `products/models.py` (the pricing part; slug generation
is elided as it touches no verified field).  The recomputation of
`display_price` is guarded by Python truthiness of both inputs:
`if self.base_price and self.commission_rate`, so it runs only when both
`base_price` and `commission_rate` are nonzero. -/
def Product.save (p : Product) : Product :=
  if p.basePrice ≠ 0 ∧ p.commissionRate ≠ 0 then
    { p with displayPrice := p.basePrice * (1 + p.commissionRate / 100) }
  else
    p

/-- A concrete product with a zero commission rate and a stale display price,
exercising the truthiness guard in `Product.save`. -/
def zeroCommissionProduct : Product :=
  { id := 1, shopId := 1, categoryId := none, basePrice := 100,
    commissionRate := 0, displayPrice := 120, stockQuantity := 5,
    averageRating := 0, reviewCount := 0, isActive := true }

/-- Claim C7: after every save, `display_price = base_price * (1 + commission_rate/100)`
for every value of the inputs, including zero.  The code refutes this: saving a
product whose `commission_rate` is `0` (a legal value) skips the recomputation,
leaving the previously stored `display_price` in place, while the specified value
would be `base_price * (1 + 0/100) = base_price`.  The save guard
`if self.base_price and self.commission_rate` treats the decimal zero as "absent",
contradicting the unconditional auto-calculation the code's own comment and the
spec describe. -/
theorem product_save_zero_commission_stale :
    (Product.save zeroCommissionProduct).displayPrice = 120 ∧
    zeroCommissionProduct.basePrice *
      (1 + zeroCommissionProduct.commissionRate / 100) = 100 ∧
    (Product.save zeroCommissionProduct).displayPrice ≠
      zeroCommissionProduct.basePrice *
        (1 + zeroCommissionProduct.commissionRate / 100) := by
  refine ⟨?_, ?_, ?_⟩ <;> norm_num [Product.save, zeroCommissionProduct]

/-- The queryset `self.variants.filter(is_active=True)` of a product: the active
variants whose foreign key points at `pid`. -/
def activeVariantsOf (variants : List ProductVariant) (pid : Nat) : List ProductVariant :=
  variants.filter (fun v => v.productId == pid && v.isActive)

/-- `Product.update_total_stock` from `products/models.py`: recompute the
product's `stock_quantity` as the sum of its active variants' stock
(`aggregate(Sum(...)) or 0`; the sum of the empty list is `0`, matching the
`or 0` fallback). -/
def Product.update_total_stock (variants : List ProductVariant) (p : Product) : Product :=
  { p with stockQuantity :=
      ((activeVariantsOf variants p.id).map ProductVariant.stockQuantity).sum }

/-- Writing a variant row with Django's `save`: an UPDATE of the row with the
same primary key when it exists, otherwise an INSERT. -/
def saveVariantRow (variants : List ProductVariant) (v : ProductVariant) :
    List ProductVariant :=
  if variants.any (fun w => w.id == v.id) then
    variants.map (fun w => if w.id == v.id then v else w)
  else
    variants ++ [v]

/-- `ProductVariant.save` from `products/models.py` (SKU generation elided: it
touches no verified field): write the variant row, then run
`self.product.update_total_stock()`, which updates exactly the owning product's
row via `Product.objects.filter(id=self.id).update(stock_quantity=total)`. -/
def ProductVariant.save (c : Catalog) (v : ProductVariant) : Catalog :=
  let variants := saveVariantRow c.variants v
  { products :=
      c.products.map (fun p =>
        if p.id == v.productId then Product.update_total_stock variants p else p),
    variants := variants }

/-- After a variant mutation routed through `ProductVariant.save` (variant
creation, a stock change, or an activation-flag change issued as a `save` call
on the variant row), the owning product's `stock_quantity` equals the sum of
the stock of its active variants.  This is the invariant the model layer
maintains; the serializer path modeled below overwrites it. -/
theorem variant_save_stock_invariant (c : Catalog) (v : ProductVariant)
    (p : Product) (hp : p ∈ (ProductVariant.save c v).products)
    (hid : p.id = v.productId) :
    p.stockQuantity =
      ((activeVariantsOf (ProductVariant.save c v).variants p.id).map
        ProductVariant.stockQuantity).sum := by
  simp only [ProductVariant.save, List.mem_map] at hp
  obtain ⟨q, hq, rfl⟩ := hp
  by_cases h : q.id == v.productId
  · simp only [h, if_true, Product.update_total_stock, ProductVariant.save]
  · exfalso
    simp only [h, if_false] at hid
    exact absurd (beq_iff_eq.mpr hid) (by simpa using h)

/-- A product row used to instantiate the stock invariant. -/
def stockProduct : Product :=
  { id := 1, shopId := 1, categoryId := none, basePrice := 100,
    commissionRate := 10, displayPrice := 110, stockQuantity := 9,
    averageRating := 0, reviewCount := 0, isActive := true }

/-- A size-M variant of `stockProduct` holding 4 units. -/
def variantM : ProductVariant :=
  { id := 1, productId := 1, size := some "M", color := none,
    stockQuantity := 4, isActive := true }

/-- A size-L variant of `stockProduct` holding 5 units. -/
def variantL : ProductVariant :=
  { id := 2, productId := 1, size := some "L", color := none,
    stockQuantity := 5, isActive := true }

/-- A two-variant catalog used to instantiate the stock invariant. -/
def stockCatalog : Catalog :=
  { products := [stockProduct], variants := [variantM, variantL] }

/-- A stock mutation of variant 2 (stock 5 becomes 2) of `stockCatalog`. -/
def stockMutation : ProductVariant :=
  { id := 2, productId := 1, size := some "L", color := none,
    stockQuantity := 2, isActive := true }

/-- The product row of `stockCatalog` as it stands after the mutation: stock
`4 + 2 = 6`. -/
def stockSavedProduct : Product :=
  { id := 1, shopId := 1, categoryId := none, basePrice := 100,
    commissionRate := 10, displayPrice := 110, stockQuantity := 6,
    averageRating := 0, reviewCount := 0, isActive := true }

/-- Witness for `variant_save_stock_invariant`: after writing `stockMutation`
into `stockCatalog`, the product row carries stock `4 + 2 = 6`. -/
theorem variant_save_stock_invariant_witness :
    stockSavedProduct.stockQuantity =
      ((activeVariantsOf (ProductVariant.save stockCatalog stockMutation).variants
        stockSavedProduct.id).map ProductVariant.stockQuantity).sum :=
  variant_save_stock_invariant stockCatalog stockMutation stockSavedProduct
    (by rw [show (ProductVariant.save stockCatalog stockMutation).products
         = [stockSavedProduct] from rfl]
        exact List.mem_singleton_self _)
    rfl

/-- One entry of the `new_variants` list accepted by `ProductUpdateSerializer`
(`products/serializers.py`): optional size and color and a stock quantity. -/
structure NewVariantData where
  size : Option String
  color : Option String
  stockQuantity : Nat
  deriving DecidableEq, Repr

/-- The existing-variant lookup of `_create_new_variants`
(`products/serializers.py`):
`ProductVariant.objects.filter(product=..., size=..., color=...).first()` —
note it does not filter on `is_active`. -/
def findVariantBySizeColor (variants : List ProductVariant) (pid : Nat)
    (size color : Option String) : Option ProductVariant :=
  (variants.filter (fun v =>
    v.productId == pid && v.size == size && v.color == color)).head?

/-- The aggregate `_create_new_variants` persists as its final step:
`product.variants.aggregate(Sum(stock_quantity))` over ALL of the product's
variants, with no `is_active` filter (`products/serializers.py` 261-263). -/
def allVariantsStockSum (variants : List ProductVariant) (pid : Nat) : Nat :=
  ((variants.filter (fun v => v.productId == pid)).map
    ProductVariant.stockQuantity).sum

/-- The `for variant_data in variants_data` loop of `_create_new_variants`:
merge the stock into an existing variant with the same size and color via its
`save`, or create a fresh active variant (both routes run `ProductVariant.save`
and hence `update_total_stock`).  `nextId` supplies the primary keys of created
rows. -/
def createNewVariantsLoop : Catalog → Nat → Nat → List NewVariantData → Catalog
  | c, _, _, [] => c
  | c, pid, nextId, vd :: rest =>
    match findVariantBySizeColor c.variants pid vd.size vd.color with
    | some v =>
      createNewVariantsLoop
        (ProductVariant.save c
          { v with stockQuantity := v.stockQuantity + vd.stockQuantity })
        pid nextId rest
    | none =>
      createNewVariantsLoop
        (ProductVariant.save c
          { id := nextId, productId := pid, size := vd.size, color := vd.color,
            stockQuantity := vd.stockQuantity, isActive := true })
        pid (nextId + 1) rest

/-- `ProductUpdateSerializer._create_new_variants` from
`products/serializers.py`: run the per-variant loop, then persist
`product.stock_quantity = ` the unfiltered all-variants aggregate
(`product.save(update_fields=[...])` writes only that column). -/
def create_new_variants (c : Catalog) (pid : Nat) (nextId : Nat)
    (data : List NewVariantData) : Catalog :=
  let c2 := createNewVariantsLoop c pid nextId data
  { c2 with products := c2.products.map (fun p =>
      if p.id == pid then
        { p with stockQuantity := allVariantsStockSum c2.variants pid }
      else p) }

/-- An inactive size-L variant of product 1 still holding 3 units. -/
def inactiveVariant : ProductVariant :=
  { id := 2, productId := 1, size := some "L", color := none,
    stockQuantity := 3, isActive := false }

/-- Product 1 with an active size-M variant (4 units) and an inactive size-L
variant (3 units). -/
def mixedCatalog : Catalog :=
  { products := [stockProduct], variants := [variantM, inactiveVariant] }

/-- A `new_variants` request entry adding a size-XL variant with 2 units. -/
def newVariantXL : NewVariantData :=
  { size := some "XL", color := none, stockQuantity := 2 }

/-- Claim C6 fails on the serializer path: after the variant mutation
`new_variants = [XL, stock 2]` on `mixedCatalog`, `_create_new_variants`
persists product stock 9 — the unfiltered sum 4 + 3 + 2 including the inactive
variant's 3 units — while the sum over active variants is 6, so the claimed
invariant does not hold after this mutation even though the
`ProductVariant.save` calls inside the loop had just maintained it. -/
theorem variant_update_breaks_stock_invariant :
    ((create_new_variants mixedCatalog 1 3 [newVariantXL]).products.map
      Product.stockQuantity) = [9] ∧
    ((activeVariantsOf (create_new_variants mixedCatalog 1 3 [newVariantXL]).variants
      1).map ProductVariant.stockQuantity).sum = 6 ∧
    (9 : Nat) ≠ 6 := by
  refine ⟨rfl, rfl, by decide⟩

/-- A row of the `order_items` table (`OrderItem` in `orders/models.py`),
restricted to the fields cancellation reads.  Both foreign keys are nullable
(`on_delete=SET_NULL`). -/
structure OrderItemRec where
  productId : Option Nat
  variantId : Option Nat
  quantity : Nat
  deriving DecidableEq, Repr

/-- A row of the `orders` table (`Order` in `orders/models.py`), restricted to
the fields the status-transition handlers read. -/
structure OrderRec where
  number : Nat
  customerId : Nat
  shopId : Nat
  status : OrderStatus
  couponId : Option Nat
  items : List OrderItemRec
  deriving DecidableEq, Repr

/-- The mutable store rows touched by cancellation, keyed by primary key:
variant stock, product stock and each coupon's `times_used` counter (an `Int`,
since the Python decrement is plain integer arithmetic). -/
structure StoreState where
  variantStock : Nat → Nat
  productStock : Nat → Nat
  couponUses : Nat → Int

/-- The `valid_transitions` dictionary in `update_order_status`
(`orders/views.py`). -/
def valid_transitions : OrderStatus → List OrderStatus
  | .placed => [.confirmed, .cancelled]
  | .confirmed => [.shipped, .cancelled]
  | .shipped => [.delivered]
  | .delivered => []
  | .cancelled => []

/-- One iteration of the stock-restoration loop in `update_order_status` /
`cancel_customer_order`: `if item.variant` credit the variant's stock,
`elif item.product` credit the product's stock. -/
def creditItem (s : StoreState) (it : OrderItemRec) : StoreState :=
  match it.variantId with
  | some v =>
    { s with variantStock :=
        fun i => if i = v then s.variantStock i + it.quantity else s.variantStock i }
  | none =>
    match it.productId with
    | some p =>
      { s with productStock :=
          fun i => if i = p then s.productStock i + it.quantity else s.productStock i }
    | none => s

/-- The `for item in order.items.all()` stock-restoration loop run when an
order enters `cancelled`. -/
def restoreStock : StoreState → List OrderItemRec → StoreState
  | s, [] => s
  | s, it :: rest => restoreStock (creditItem s it) rest

/-- The coupon compensation run when an order enters `cancelled`:
`order.coupon.times_used -= 1` when the order carries a coupon. -/
def decrementCoupon (s : StoreState) : Option Nat → StoreState
  | some cid =>
    { s with couponUses :=
        fun i => if i = cid then s.couponUses i - 1 else s.couponUses i }
  | none => s

/-- The state and order row produced by the shared cancellation body of
`update_order_status` and `cancel_customer_order` (`orders/views.py`):
restore stock for every item, undo the coupon usage, persist the order with
status `cancelled`. -/
def applyCancellation (s : StoreState) (o : OrderRec) : StoreState × OrderRec :=
  (decrementCoupon (restoreStock s o.items) o.couponId, { o with status := .cancelled })

/-- `update_order_status` from `orders/views.py`, after the seller has been
authorised and the order fetched by `(order_number, shop)`: reject the request
when the new status is not in `valid_transitions[current]`, otherwise persist
the new status, running the stock/coupon compensation when the new status is
`cancelled`.  Timestamp fields are elided (they mirror the status). -/
def update_order_status (s : StoreState) (o : OrderRec) (ns : OrderStatus) :
    Except String (StoreState × OrderRec) :=
  if ns ∈ valid_transitions o.status then
    if ns = .cancelled then
      .ok (applyCancellation s o)
    else
      .ok (s, { o with status := ns })
  else
    .error "Cannot change status"

/-- `cancel_customer_order` from `orders/views.py`: the order is fetched by
`(order_number, customer=request.user)` — a customer mismatch surfaces as
`Order not found` — then the request is rejected unless the current status is
`placed` or `confirmed`, and otherwise the shared cancellation body runs. -/
def cancel_customer_order (s : StoreState) (o : OrderRec) (uid : Nat) :
    Except String (StoreState × OrderRec) :=
  if o.customerId ≠ uid then
    .error "Order not found"
  else if o.status ∉ [OrderStatus.placed, OrderStatus.confirmed] then
    .error "Cannot cancel order"
  else
    .ok (applyCancellation s o)

/-- The transition table exactly as the claim states it: `placed` to
`confirmed` or `cancelled`; `confirmed` to `shipped` or `cancelled`; `shipped`
to `delivered`; nothing from `delivered` or `cancelled`. -/
def claimedTransitionTable : List (OrderStatus × OrderStatus) :=
  [(.placed, .confirmed), (.placed, .cancelled),
   (.confirmed, .shipped), (.confirmed, .cancelled),
   (.shipped, .delivered)]

/-- Claim C2: a status change is accepted exactly when it appears in the
claimed transition table; any other request — in particular shipped to
cancelled and every backward transition — is rejected with the
invalid-transition error, returning no mutated state; and customer self-cancel
succeeds exactly when the order belongs to the requesting customer and its
status is `placed` or `confirmed`. -/
theorem order_status_transition_table (s : StoreState) (o : OrderRec)
    (ns : OrderStatus) (uid : Nat) :
    ((update_order_status s o ns).isOk = true ↔
      (o.status, ns) ∈ claimedTransitionTable) ∧
    ((o.status, ns) ∉ claimedTransitionTable →
      update_order_status s o ns = .error "Cannot change status") ∧
    ((cancel_customer_order s o uid).isOk = true ↔
      (o.customerId = uid ∧ (o.status = .placed ∨ o.status = .confirmed))) := by
  refine ⟨?_, ?_, ?_⟩
  · cases h : o.status <;> cases ns <;>
      simp [update_order_status, valid_transitions, claimedTransitionTable, h,
        Except.isOk, Except.toBool]
  · intro hmem
    cases h : o.status <;> cases ns <;>
      simp_all [update_order_status, valid_transitions, claimedTransitionTable,
        Except.isOk, Except.toBool]
  · by_cases hc : o.customerId = uid
    · cases h : o.status <;>
        simp [cancel_customer_order, hc, h, Except.isOk, Except.toBool]
    · simp [cancel_customer_order, hc, Except.isOk, Except.toBool]

lemma creditItem_variantStock (s : StoreState) (it : OrderItemRec) (v : Nat) :
    (creditItem s it).variantStock v =
      s.variantStock v + (if it.variantId == some v then it.quantity else 0) := by
  rcases hit : it.variantId with _ | w
  · rcases hp : it.productId with _ | p <;> simp [creditItem, hit, hp]
  · by_cases hv : w = v
    · subst hv; simp [creditItem, hit]
    · simp [creditItem, hit, hv, Ne.symm hv]

lemma creditItem_productStock (s : StoreState) (it : OrderItemRec) (p : Nat) :
    (creditItem s it).productStock p =
      s.productStock p +
        (if it.variantId == none && it.productId == some p then it.quantity else 0) := by
  rcases hit : it.variantId with _ | w
  · rcases hp : it.productId with _ | q
    · simp [creditItem, hit, hp]
    · by_cases hq : q = p
      · subst hq; simp [creditItem, hit, hp]
      · simp [creditItem, hit, hp, hq, Ne.symm hq]
  · simp [creditItem, hit]

lemma creditItem_couponUses (s : StoreState) (it : OrderItemRec) :
    (creditItem s it).couponUses = s.couponUses := by
  rcases hit : it.variantId with _ | w
  · rcases hp : it.productId with _ | q <;> simp [creditItem, hit, hp]
  · simp [creditItem, hit]

lemma restoreStock_variantStock :
    ∀ (items : List OrderItemRec) (s : StoreState) (v : Nat),
      (restoreStock s items).variantStock v =
        s.variantStock v +
          ((items.filter (fun it => it.variantId == some v)).map
            OrderItemRec.quantity).sum
  | [], s, v => by simp [restoreStock]
  | it :: rest, s, v => by
      rw [restoreStock, restoreStock_variantStock rest, creditItem_variantStock]
      by_cases h : it.variantId == some v <;>
        simp [List.filter_cons, h, Nat.add_assoc]

lemma restoreStock_productStock :
    ∀ (items : List OrderItemRec) (s : StoreState) (p : Nat),
      (restoreStock s items).productStock p =
        s.productStock p +
          ((items.filter (fun it => it.variantId == none && it.productId == some p)).map
            OrderItemRec.quantity).sum
  | [], s, p => by simp [restoreStock]
  | it :: rest, s, p => by
      rw [restoreStock, restoreStock_productStock rest, creditItem_productStock]
      by_cases h : it.variantId == none && it.productId == some p <;>
        simp [List.filter_cons, h, Nat.add_assoc]

lemma restoreStock_couponUses :
    ∀ (items : List OrderItemRec) (s : StoreState),
      (restoreStock s items).couponUses = s.couponUses
  | [], s => rfl
  | it :: rest, s => by
      rw [restoreStock, restoreStock_couponUses rest, creditItem_couponUses]

lemma decrementCoupon_variantStock (s : StoreState) (oc : Option Nat) :
    (decrementCoupon s oc).variantStock = s.variantStock := by
  cases oc <;> rfl

lemma decrementCoupon_productStock (s : StoreState) (oc : Option Nat) :
    (decrementCoupon s oc).productStock = s.productStock := by
  cases oc <;> rfl

/-- Claim C3: entering `cancelled` (by either the seller path or the customer
path, which share the compensation body) restores every item's quantity to the
variant stock when the item carries a variant and to the product stock
otherwise, decrements the carried coupon's `times_used` by exactly one, leaves
the coupon counters untouched when no coupon was carried, and — because
`cancelled` is terminal — a second cancellation of the resulting order is
rejected by both paths, so the restoration runs exactly once. -/
theorem cancellation_restores_stock_once (s : StoreState) (o : OrderRec)
    (uid : Nat) (hcust : o.customerId = uid)
    (hst : o.status = .placed ∨ o.status = .confirmed) :
    cancel_customer_order s o uid = .ok (applyCancellation s o) ∧
    update_order_status s o .cancelled = .ok (applyCancellation s o) ∧
    (applyCancellation s o).2.status = .cancelled ∧
    (∀ v, (applyCancellation s o).1.variantStock v =
      s.variantStock v +
        ((o.items.filter (fun it => it.variantId == some v)).map
          OrderItemRec.quantity).sum) ∧
    (∀ p, (applyCancellation s o).1.productStock p =
      s.productStock p +
        ((o.items.filter (fun it => it.variantId == none && it.productId == some p)).map
          OrderItemRec.quantity).sum) ∧
    (∀ cid, o.couponId = some cid →
      (applyCancellation s o).1.couponUses cid = s.couponUses cid - 1) ∧
    (o.couponId = none → (applyCancellation s o).1.couponUses = s.couponUses) ∧
    cancel_customer_order (applyCancellation s o).1 (applyCancellation s o).2 uid =
      .error "Cannot cancel order" ∧
    (∀ ns, update_order_status (applyCancellation s o).1 (applyCancellation s o).2 ns =
      .error "Cannot change status") := by
  refine ⟨?_, ?_, rfl, ?_, ?_, ?_, ?_, ?_, ?_⟩
  · rcases hst with h | h <;> simp [cancel_customer_order, hcust, h]
  · rcases hst with h | h <;> simp [update_order_status, valid_transitions, h]
  · intro v
    simp [applyCancellation, congrFun (decrementCoupon_variantStock _ _) v,
      restoreStock_variantStock]
  · intro p
    simp [applyCancellation, congrFun (decrementCoupon_productStock _ _) p,
      restoreStock_productStock]
  · intro cid hc
    simp [applyCancellation, hc, decrementCoupon,
      congrFun (restoreStock_couponUses o.items s) cid]
  · intro hc
    simp [applyCancellation, hc, decrementCoupon, restoreStock_couponUses]
  · simp [cancel_customer_order, applyCancellation, hcust]
  · intro ns
    simp [update_order_status, applyCancellation, valid_transitions]

/-- The all-zero store state. -/
def emptyStore : StoreState :=
  { variantStock := fun _ => 0, productStock := fun _ => 0, couponUses := fun _ => 0 }

/-- A placed two-item order of customer 3 carrying coupon 7; the first item
references variant 1, the second only product 2. -/
def placedOrder : OrderRec :=
  { number := 1, customerId := 3, shopId := 1, status := .placed,
    couponId := some 7,
    items := [{ productId := some 1, variantId := some 1, quantity := 2 },
              { productId := some 2, variantId := none, quantity := 1 }] }

/-- Witness for `order_status_transition_table`: at a concrete placed order,
the shipped transition is rejected. -/
theorem order_status_transition_table_witness :
    (update_order_status emptyStore placedOrder .shipped).isOk = true ↔
      ((OrderStatus.placed, OrderStatus.shipped) ∈ claimedTransitionTable) :=
  (order_status_transition_table emptyStore placedOrder .shipped 3).1

/-- Witness for `cancellation_restores_stock_once`: customer 3 cancelling
`placedOrder` succeeds and produces exactly the compensation state. -/
theorem cancellation_restores_stock_once_witness :
    cancel_customer_order emptyStore placedOrder 3 =
      .ok (applyCancellation emptyStore placedOrder) ∧
    (applyCancellation emptyStore placedOrder).1.variantStock 1 = 2 :=
  ⟨(cancellation_restores_stock_once emptyStore placedOrder 3 rfl (Or.inl rfl)).1,
    by rw [(cancellation_restores_stock_once emptyStore placedOrder 3 rfl
        (Or.inl rfl)).2.2.2.1 1]
       decide⟩

/-- A row of the `coupons` table (`Coupon` in `coupons/models.py`), restricted
to the fields discount computation reads.  Validity-window and usage-cap fields
are elided: the handlers check them before the verified discount computation
and they do not influence it. -/
structure Coupon where
  id : Nat
  shopId : Nat
  discountType : DiscountType
  discountValue : Rat
  applicability : Applicability
  categoryId : Option Nat
  productId : Option Nat
  minOrderValue : Rat
  deriving DecidableEq, Repr

/-- One entry of the `cart_items` request body of `create_order`
(`orders/views.py`): product id, quantity and optional size/color. -/
structure CartItem where
  productId : Nat
  quantity : Nat
  size : Option String
  color : Option String
  deriving DecidableEq, Repr

/-- One entry of `items_breakdown` built by `calculate_order_totals`
(`orders/utils.py`), restricted to the fields later code reads. -/
structure ItemBreakdown where
  productId : Nat
  variantId : Option Nat
  basePrice : Rat
  displayPrice : Rat
  commissionRate : Rat
  quantity : Nat
  itemSubtotal : Rat
  commissionAmount : Rat
  sellerAmount : Rat
  deriving DecidableEq, Repr

/-- The dictionary returned by `calculate_order_totals` (`orders/utils.py`). -/
structure OrderTotals where
  items : List ItemBreakdown
  subtotal : Rat
  codFee : Rat
  totalAmount : Rat
  commissionAmount : Rat
  sellerPayoutAmount : Rat
  deriving DecidableEq, Repr

/-- `Product.objects.get(id=..., is_active=True)` as used by
`calculate_order_totals`. -/
def findActiveProduct (cat : Catalog) (pid : Nat) : Option Product :=
  cat.products.find? (fun p => p.id == pid && p.isActive)

/-- `Product.objects.get(id=...)` as used by the coupon sections of
`orders/views.py` and `coupons/views.py` (no active filter there). -/
def findProduct (cat : Catalog) (pid : Nat) : Option Product :=
  cat.products.find? (fun p => p.id == pid)

/-- `Product.get_variant` from `products/models.py`: the first active variant
of the product matching the size filter (when given) and the color filter
(when given). -/
def Product.get_variant (cat : Catalog) (p : Product) (size color : Option String) :
    Option ProductVariant :=
  (cat.variants.filter (fun v =>
    v.productId == p.id && v.isActive
    && (match size with | some sz => v.size == some sz | none => true)
    && (match color with | some cl => v.color == some cl | none => true))).head?

/-- The per-item entry appended to `items_breakdown` by
`calculate_order_totals`. -/
def mkBreakdown (p : Product) (vid : Option Nat) (q : Nat) : ItemBreakdown :=
  { productId := p.id, variantId := vid, basePrice := p.basePrice,
    displayPrice := p.displayPrice, commissionRate := p.commissionRate,
    quantity := q, itemSubtotal := p.displayPrice * (q : Rat),
    commissionAmount := (p.displayPrice - p.basePrice) * (q : Rat),
    sellerAmount := p.basePrice * (q : Rat) }

/-- One iteration of the `for item in cart_items` loop of
`calculate_order_totals` (`orders/utils.py`): resolve the active product,
resolve and stock-check the variant when a size or color was given (else check
product-level stock), and build the item breakdown. -/
def calcItem (cat : Catalog) (it : CartItem) : Except String ItemBreakdown :=
  match findActiveProduct cat it.productId with
  | none => .error "Product not found or inactive"
  | some p =>
    if it.size.isSome || it.color.isSome then
      match Product.get_variant cat p it.size it.color with
      | none => .error "Variant not found"
      | some v =>
        if v.stockQuantity < it.quantity then .error "Insufficient stock"
        else .ok (mkBreakdown p (some v.id) it.quantity)
    else
      if p.stockQuantity < it.quantity then .error "Insufficient stock"
      else .ok (mkBreakdown p none it.quantity)

/-- The accumulator loop of `calculate_order_totals`, carrying
`items_breakdown`, `subtotal`, `total_commission` and `total_seller_payout`
exactly as the Python loop does. -/
def calcLoop (cat : Catalog) :
    List CartItem → List ItemBreakdown → Rat → Rat → Rat →
    Except String (List ItemBreakdown × Rat × Rat × Rat)
  | [], acc, sub, comm, payout => .ok (acc, sub, comm, payout)
  | it :: rest, acc, sub, comm, payout =>
    match calcItem cat it with
    | .error e => .error e
    | .ok b =>
      calcLoop cat rest (acc ++ [b]) (sub + b.itemSubtotal)
        (comm + b.commissionAmount) (payout + b.sellerAmount)

/-- `calculate_order_totals` from `orders/utils.py`: run the item loop, then
apply the COD-fee rule (50 when the subtotal is under 500, else 0) and return
the totals dictionary with `total_amount = subtotal + cod_fee`. -/
def calculate_order_totals (cat : Catalog) (cart : List CartItem) :
    Except String OrderTotals :=
  match calcLoop cat cart [] 0 0 0 with
  | .error e => .error e
  | .ok (items, sub, comm, payout) =>
    let codFee : Rat := if sub < 500 then 50 else 0
    .ok { items := items, subtotal := sub, codFee := codFee,
          totalAmount := sub + codFee, commissionAmount := comm,
          sellerPayoutAmount := payout }

/-- The per-item applicability test of the coupon sections
(`orders/views.py` and `coupons/views.py`): scope `all` matches everything;
scope `category` matches only when the coupon has a category and the product's
category id equals it; scope `product` likewise with the product id. -/
def couponItemApplicable (coupon : Coupon) (p : Product) : Bool :=
  match coupon.applicability with
  | .all => true
  | .category =>
    match coupon.categoryId with
    | some _ => p.categoryId == coupon.categoryId
    | none => false
  | .product =>
    match coupon.productId with
    | some pid => p.id == pid
    | none => false

/-- Whether an item of the order breakdown counts toward the coupon's
applicable total: its product is re-fetched by id and tested for scope. -/
def itemApplicableB (cat : Catalog) (coupon : Coupon) (b : ItemBreakdown) : Bool :=
  match findProduct cat b.productId with
  | some p => couponItemApplicable coupon p
  | none => false

/-- The `applicable_total` accumulation loop of `create_order`
(`orders/views.py`, coupon section): sum `item_subtotal` over the items whose
re-fetched product passes the scope test. -/
def applicableTotal (cat : Catalog) (coupon : Coupon) : List ItemBreakdown → Rat
  | [] => 0
  | b :: rest =>
    (if itemApplicableB cat coupon b then b.itemSubtotal else 0)
      + applicableTotal cat coupon rest

/-- The discount computation of `create_order` (`orders/views.py`): fail when
the applicable total is under `min_order_value`; otherwise a percentage coupon
discounts `applicable_total * discount_value / 100` and a fixed coupon
discounts `discount_value` capped at the applicable total. -/
def couponDiscount (cat : Catalog) (coupon : Coupon) (items : List ItemBreakdown) :
    Except String Rat :=
  let appTotal := applicableTotal cat coupon items
  if appTotal < coupon.minOrderValue then
    .error "Minimum order value required"
  else
    match coupon.discountType with
    | .percentage => .ok (appTotal * coupon.discountValue / 100)
    | .fixed =>
      .ok (if coupon.discountValue > appTotal then appTotal else coupon.discountValue)

/-- The pricing fields persisted on the `Order` row by `create_order`
(`orders/views.py`). -/
structure PersistedOrder where
  subtotal : Rat
  codFee : Rat
  couponDiscountAmount : Rat
  totalAmount : Rat
  commissionAmount : Rat
  sellerPayoutAmount : Rat
  deriving DecidableEq, Repr

/-- The `Order.objects.create(...)` call of `create_order`: every pricing field
is copied from the totals dictionary except `total_amount`, which is stored as
`order_totals total_amount minus coupon_discount`. -/
def persistOrder (tot : OrderTotals) (disc : Rat) : PersistedOrder :=
  { subtotal := tot.subtotal, codFee := tot.codFee,
    couponDiscountAmount := disc, totalAmount := tot.totalAmount - disc,
    commissionAmount := tot.commissionAmount,
    sellerPayoutAmount := tot.sellerPayoutAmount }

/-- `create_order` from `orders/views.py`, restricted to its pricing behaviour:
compute the totals, compute the coupon discount when a (already
validity-checked) coupon was supplied — `coupon_discount` stays `0` otherwise —
and persist the order.  The same-shop check, coupon validity/usage-cap checks
and the stock/usage writes gate or follow this computation without altering the
persisted pricing fields. -/
def create_order (cat : Catalog) (cart : List CartItem) (coupon : Option Coupon) :
    Except String (PersistedOrder × List ItemBreakdown) :=
  match calculate_order_totals cat cart with
  | .error e => .error e
  | .ok tot =>
    match coupon with
    | none => .ok (persistOrder tot 0, tot.items)
    | some c =>
      match couponDiscount cat c tot.items with
      | .error e => .error e
      | .ok disc => .ok (persistOrder tot disc, tot.items)

/-- Internal consistency of one breakdown entry: the stored per-item figures
are the undiscounted `display_price x qty`, `(display - base) x qty` and
`base x qty`. -/
def breakdownConsistent (b : ItemBreakdown) : Prop :=
  b.itemSubtotal = b.displayPrice * (b.quantity : Rat) ∧
  b.commissionAmount = (b.displayPrice - b.basePrice) * (b.quantity : Rat) ∧
  b.sellerAmount = b.basePrice * (b.quantity : Rat)

lemma calcItem_consistent (cat : Catalog) (it : CartItem) (b : ItemBreakdown)
    (h : calcItem cat it = .ok b) : breakdownConsistent b := by
  unfold calcItem at h
  rcases hf : findActiveProduct cat it.productId with _ | p <;>
    simp only [hf] at h
  · exact absurd h (by simp)
  · by_cases hv : (it.size.isSome || it.color.isSome) = true
    · rw [if_pos hv] at h
      rcases hg : Product.get_variant cat p it.size it.color with _ | v <;>
        simp only [hg] at h
      · exact absurd h (by simp)
      · by_cases hs : v.stockQuantity < it.quantity
        · rw [if_pos hs] at h; exact absurd h (by simp)
        · rw [if_neg hs] at h
          simp only [Except.ok.injEq] at h
          subst h
          exact ⟨rfl, rfl, rfl⟩
    · rw [if_neg hv] at h
      by_cases hs : p.stockQuantity < it.quantity
      · rw [if_pos hs] at h; exact absurd h (by simp)
      · rw [if_neg hs] at h
        simp only [Except.ok.injEq] at h
        subst h
        exact ⟨rfl, rfl, rfl⟩

lemma calcLoop_spec (cat : Catalog) :
    ∀ (cart : List CartItem) (acc : List ItemBreakdown) (sub comm payout : Rat)
      (items : List ItemBreakdown) (sub2 comm2 payout2 : Rat),
      calcLoop cat cart acc sub comm payout = .ok (items, sub2, comm2, payout2) →
      ∃ rest, items = acc ++ rest ∧
        sub2 = sub + ((rest.map ItemBreakdown.itemSubtotal).sum) ∧
        comm2 = comm + ((rest.map ItemBreakdown.commissionAmount).sum) ∧
        payout2 = payout + ((rest.map ItemBreakdown.sellerAmount).sum) ∧
        ∀ b ∈ rest, breakdownConsistent b
  | [], acc, sub, comm, payout, items, sub2, comm2, payout2, h => by
      simp only [calcLoop, Except.ok.injEq, Prod.mk.injEq] at h
      obtain ⟨h1, h2, h3, h4⟩ := h
      exact ⟨[], by simp [h1, h2, h3, h4]⟩
  | it :: cart, acc, sub, comm, payout, items, sub2, comm2, payout2, h => by
      rw [calcLoop] at h
      rcases hc : calcItem cat it with e | b <;> rw [hc] at h
      · exact absurd h (by simp)
      · obtain ⟨rest, hitems, hsub, hcomm, hpay, hcons⟩ :=
          calcLoop_spec cat cart (acc ++ [b]) _ _ _ items sub2 comm2 payout2 h
        refine ⟨b :: rest, ?_, ?_, ?_, ?_, ?_⟩
        · simpa [List.append_assoc] using hitems
        · rw [hsub, List.map_cons, List.sum_cons]; ring
        · rw [hcomm, List.map_cons, List.sum_cons]; ring
        · rw [hpay, List.map_cons, List.sum_cons]; ring
        · intro x hx
          rcases List.mem_cons.mp hx with rfl | hx
          · exact calcItem_consistent cat it x hc
          · exact hcons x hx

lemma calculate_order_totals_spec (cat : Catalog) (cart : List CartItem)
    (tot : OrderTotals) (h : calculate_order_totals cat cart = .ok tot) :
    tot.subtotal = ((tot.items.map ItemBreakdown.itemSubtotal).sum) ∧
    tot.codFee = (if tot.subtotal < 500 then (50 : Rat) else 0) ∧
    tot.totalAmount = tot.subtotal + tot.codFee ∧
    tot.commissionAmount = ((tot.items.map ItemBreakdown.commissionAmount).sum) ∧
    tot.sellerPayoutAmount = ((tot.items.map ItemBreakdown.sellerAmount).sum) ∧
    ∀ b ∈ tot.items, breakdownConsistent b := by
  unfold calculate_order_totals at h
  rcases hl : calcLoop cat cart [] 0 0 0 with e | x <;> rw [hl] at h
  · exact absurd h (by simp)
  · obtain ⟨items, sub, comm, payout⟩ := x
    obtain ⟨rest, hitems, hsub, hcomm, hpay, hcons⟩ :=
      calcLoop_spec cat cart [] 0 0 0 items sub comm payout hl
    simp only [Except.ok.injEq] at h
    subst h
    simp only [List.nil_append] at hitems
    subst hitems
    refine ⟨by simpa using hsub, rfl, rfl, by simpa using hcomm,
      by simpa using hpay, hcons⟩

/-- Claim C1: every persisted order's pricing satisfies: `subtotal` is the sum
of the items' `item_subtotal`; `cod_fee` is 50 exactly when the subtotal is
under 500 and 0 otherwise; the persisted `total_amount` is
`subtotal + cod_fee - coupon_discount`, with a zero discount when no coupon was
applied; and the commission and seller-payout totals are the sums of the
per-item figures, which are themselves computed from the undiscounted prices. -/
theorem create_order_pricing (cat : Catalog) (cart : List CartItem)
    (coupon : Option Coupon) (o : PersistedOrder) (items : List ItemBreakdown)
    (h : create_order cat cart coupon = .ok (o, items)) :
    o.subtotal = ((items.map ItemBreakdown.itemSubtotal).sum) ∧
    o.codFee = (if o.subtotal < 500 then (50 : Rat) else 0) ∧
    o.totalAmount = o.subtotal + o.codFee - o.couponDiscountAmount ∧
    (coupon = none → o.couponDiscountAmount = 0) ∧
    o.commissionAmount = ((items.map ItemBreakdown.commissionAmount).sum) ∧
    o.sellerPayoutAmount = ((items.map ItemBreakdown.sellerAmount).sum) ∧
    ∀ b ∈ items, breakdownConsistent b := by
  unfold create_order at h
  rcases ht : calculate_order_totals cat cart with e | tot <;>
    simp only [ht] at h
  · exact absurd h (by simp)
  · obtain ⟨hsub, hfee, htot, hcomm, hpay, hcons⟩ :=
      calculate_order_totals_spec cat cart tot ht
    rcases coupon with _ | c
    · simp only [Except.ok.injEq, Prod.mk.injEq] at h
      obtain ⟨ho, hi⟩ := h
      subst ho; subst hi
      exact ⟨hsub, hfee, by simp [persistOrder, htot], fun _ => rfl, hcomm,
        hpay, hcons⟩
    · rcases hd : couponDiscount cat c tot.items with e | disc <;>
        simp only [hd] at h
      · exact absurd h (by simp)
      · simp only [Except.ok.injEq, Prod.mk.injEq] at h
        obtain ⟨ho, hi⟩ := h
        subst ho; subst hi
        refine ⟨hsub, hfee, ?_, fun hn => by simp at hn, hcomm, hpay, hcons⟩
        simp only [persistOrder, htot]

/-- A product priced at base 100 with a 10 percent commission (display 110). -/
def priceProduct : Product :=
  { id := 1, shopId := 1, categoryId := some 4, basePrice := 100,
    commissionRate := 10, displayPrice := 110, stockQuantity := 5,
    averageRating := 0, reviewCount := 0, isActive := true }

/-- A catalog holding only `priceProduct`. -/
def priceCatalog : Catalog := { products := [priceProduct], variants := [] }

/-- A cart ordering two units of `priceProduct` with no size or color. -/
def priceCart : List CartItem :=
  [{ productId := 1, quantity := 2, size := none, color := none }]

/-- The breakdown entry `calculate_order_totals` produces for `priceCart`. -/
def priceItem : ItemBreakdown :=
  { productId := 1, variantId := none, basePrice := 100, displayPrice := 110,
    commissionRate := 10, quantity := 2, itemSubtotal := 220,
    commissionAmount := 20, sellerAmount := 200 }

/-- The order row `create_order` persists for `priceCart` without a coupon:
subtotal 220 (under 500, so COD fee 50), total 270. -/
def priceOrder : PersistedOrder :=
  { subtotal := 220, codFee := 50, couponDiscountAmount := 0,
    totalAmount := 270, commissionAmount := 20, sellerPayoutAmount := 200 }

lemma create_order_price_eval :
    create_order priceCatalog priceCart none = .ok (priceOrder, [priceItem]) := by
  norm_num [create_order, calculate_order_totals, calcLoop, calcItem,
    findActiveProduct, mkBreakdown, persistOrder, priceCatalog, priceProduct,
    priceCart, priceItem, priceOrder, List.find?]

/-- Witness for `create_order_pricing`: the concrete no-coupon order over
`priceCart` satisfies the pricing identities. -/
theorem create_order_pricing_witness :
    priceOrder.subtotal = (([priceItem].map ItemBreakdown.itemSubtotal).sum) ∧
    priceOrder.codFee = (if priceOrder.subtotal < 500 then (50 : Rat) else 0) ∧
    priceOrder.totalAmount =
      priceOrder.subtotal + priceOrder.codFee - priceOrder.couponDiscountAmount ∧
    priceOrder.couponDiscountAmount = 0 := by
  obtain ⟨h1, h2, h3, h4, _⟩ :=
    create_order_pricing priceCatalog priceCart none priceOrder [priceItem]
      create_order_price_eval
  exact ⟨h1, h2, h3, h4 rfl⟩

lemma applicableTotal_eq_filter_sum (cat : Catalog) (coupon : Coupon) :
    ∀ items : List ItemBreakdown,
      applicableTotal cat coupon items =
        ((items.filter (itemApplicableB cat coupon)).map
          ItemBreakdown.itemSubtotal).sum := by
  intro items
  induction items with
  | nil => rfl
  | cons b rest ih =>
    by_cases h : itemApplicableB cat coupon b <;>
      simp [applicableTotal, List.filter_cons, h, ih]

/-- Claim C5: the applicable total is the sum of `item_subtotal` over exactly
the items passing the coupon's scope test (`all` matches every item; `category`
matches items whose product's category equals the coupon's category; `product`
matches items whose product is the coupon's product); redemption fails with the
minimum-order error exactly when that total is under `min_order_value`; and
otherwise the discount is `applicable_total * discount_value / 100` for
percentage coupons and `min(discount_value, applicable_total)` for fixed
coupons, never exceeding the applicable total (the create/update serializers
reject percentage coupons above 100, giving the percentage hypothesis). -/
theorem coupon_discount_spec (cat : Catalog) (coupon : Coupon)
    (items : List ItemBreakdown)
    (hpct : coupon.discountType = .percentage → coupon.discountValue ≤ 100)
    (hpos : ∀ b ∈ items, 0 ≤ b.itemSubtotal) :
    applicableTotal cat coupon items =
      ((items.filter (itemApplicableB cat coupon)).map
        ItemBreakdown.itemSubtotal).sum ∧
    (coupon.applicability = .all → ∀ p, couponItemApplicable coupon p = true) ∧
    (coupon.applicability = .category → ∀ cid, coupon.categoryId = some cid →
      ∀ p, (couponItemApplicable coupon p = true ↔
        p.categoryId = coupon.categoryId)) ∧
    (coupon.applicability = .product → ∀ pid, coupon.productId = some pid →
      ∀ p, (couponItemApplicable coupon p = true ↔ p.id = pid)) ∧
    (applicableTotal cat coupon items < coupon.minOrderValue →
      couponDiscount cat coupon items = .error "Minimum order value required") ∧
    (¬ applicableTotal cat coupon items < coupon.minOrderValue →
      (coupon.discountType = .percentage →
        couponDiscount cat coupon items =
          .ok (applicableTotal cat coupon items * coupon.discountValue / 100)) ∧
      (coupon.discountType = .fixed →
        couponDiscount cat coupon items =
          .ok (min coupon.discountValue (applicableTotal cat coupon items))) ∧
      (∀ d, couponDiscount cat coupon items = .ok d →
        d ≤ applicableTotal cat coupon items)) := by
  have htot : 0 ≤ applicableTotal cat coupon items := by
    rw [applicableTotal_eq_filter_sum]
    apply List.sum_nonneg
    intro x hx
    obtain ⟨b, hb, rfl⟩ := List.mem_map.mp hx
    exact hpos b (List.mem_of_mem_filter hb)
  refine ⟨applicableTotal_eq_filter_sum cat coupon items, ?_, ?_, ?_, ?_, ?_⟩
  · intro h p; simp [couponItemApplicable, h]
  · intro h cid hcid p
    simp [couponItemApplicable, h, hcid]
  · intro h pid hpid p
    simp [couponItemApplicable, h, hpid]
  · intro h; simp [couponDiscount, h]
  · intro h
    refine ⟨?_, ?_, ?_⟩
    · intro hp; simp [couponDiscount, h, hp]
    · intro hf
      simp only [couponDiscount, if_neg h, hf]
      congr 1
      rcases le_or_lt coupon.discountValue (applicableTotal cat coupon items) with
        hle | hlt
      · rw [if_neg (not_lt.mpr hle), min_eq_left hle]
      · rw [if_pos hlt, min_eq_right (le_of_lt hlt)]
    · intro d hd
      rcases hdt : coupon.discountType with _ | _
      · simp only [couponDiscount, if_neg h, hdt] at hd
        simp only [Except.ok.injEq] at hd
        subst hd
        rw [div_le_iff₀ (by norm_num : (0 : Rat) < 100)]
        exact mul_le_mul_of_nonneg_left (hpct hdt) htot
      · simp only [couponDiscount, if_neg h, hdt] at hd
        simp only [Except.ok.injEq] at hd
        subst hd
        split
        · exact le_refl _
        · next h2 => exact le_of_not_lt h2

/-- A second product, in category 9, for the coupon-scope witness. -/
def otherProduct : Product :=
  { id := 2, shopId := 1, categoryId := some 9, basePrice := 40,
    commissionRate := 25, displayPrice := 50, stockQuantity := 5,
    averageRating := 0, reviewCount := 0, isActive := true }

/-- A catalog holding `priceProduct` (category 4) and `otherProduct` (category 9). -/
def scopeCatalog : Catalog :=
  { products := [priceProduct, otherProduct], variants := [] }

/-- A fixed 30-off coupon scoped to category 4 with a 50 minimum. -/
def categoryCoupon : Coupon :=
  { id := 7, shopId := 1, discountType := .fixed, discountValue := 30,
    applicability := .category, categoryId := some 4, productId := none,
    minOrderValue := 50 }

/-- A breakdown entry for one unit of `priceProduct` (subtotal 110). -/
def scopeItemA : ItemBreakdown :=
  { productId := 1, variantId := none, basePrice := 100, displayPrice := 110,
    commissionRate := 10, quantity := 1, itemSubtotal := 110,
    commissionAmount := 10, sellerAmount := 100 }

/-- A breakdown entry for one unit of `otherProduct` (subtotal 50). -/
def scopeItemB : ItemBreakdown :=
  { productId := 2, variantId := none, basePrice := 40, displayPrice := 50,
    commissionRate := 25, quantity := 1, itemSubtotal := 50,
    commissionAmount := 10, sellerAmount := 40 }

/-- Witness for `coupon_discount_spec`: over the two-item breakdown only the
category-4 item counts (applicable total 110, above the 50 minimum), and the
fixed coupon discounts `min 30 110 = 30`. -/
theorem coupon_discount_spec_witness :
    applicableTotal scopeCatalog categoryCoupon [scopeItemA, scopeItemB] =
      (([scopeItemA, scopeItemB].filter
        (itemApplicableB scopeCatalog categoryCoupon)).map
          ItemBreakdown.itemSubtotal).sum ∧
    couponDiscount scopeCatalog categoryCoupon [scopeItemA, scopeItemB] =
      .ok (min categoryCoupon.discountValue
        (applicableTotal scopeCatalog categoryCoupon [scopeItemA, scopeItemB])) := by
  obtain ⟨h1, _, _, _, _, h6⟩ :=
    coupon_discount_spec scopeCatalog categoryCoupon [scopeItemA, scopeItemB]
      (by intro hx; simp [categoryCoupon] at hx)
      (by intro b hb
          simp only [List.mem_cons, List.not_mem_nil, or_false] at hb
          rcases hb with rfl | rfl <;> norm_num [scopeItemA, scopeItemB])
  refine ⟨h1, (h6 ?_).2.1 rfl⟩
  norm_num [applicableTotal, itemApplicableB, findProduct, couponItemApplicable,
    scopeCatalog, categoryCoupon, priceProduct, otherProduct, scopeItemA,
    scopeItemB, List.find?]
  split <;> norm_num

/-- One entry of the `cart_items` request body of `validate_coupon`
(`coupons/views.py`): product id, quantity and a client-supplied `price`. -/
structure ValidateCartItem where
  productId : Nat
  quantity : Nat
  price : Rat
  deriving DecidableEq, Repr

/-- The `applicable_total` accumulation loop of `validate_coupon`
(`coupons/views.py`): for each cart entry it re-fetches the product by id for
the scope test but sums `price * quantity` from the client-supplied `price`
field, not the stored `display_price`. -/
def validateApplicableTotal (cat : Catalog) (coupon : Coupon) :
    List ValidateCartItem → Rat
  | [] => 0
  | it :: rest =>
    (match findProduct cat it.productId with
     | some p =>
       if couponItemApplicable coupon p then it.price * (it.quantity : Rat) else 0
     | none => 0)
      + validateApplicableTotal cat coupon rest

/-- The discount preview of `validate_coupon` (`coupons/views.py`), after the
coupon-validity, per-user and same-shop checks that precede it: the same
minimum-order check and percentage/fixed branches as `create_order`, but over
the client-priced applicable total. -/
def validate_coupon (cat : Catalog) (coupon : Coupon)
    (cart : List ValidateCartItem) : Except String Rat :=
  let appTotal := validateApplicableTotal cat coupon cart
  if appTotal < coupon.minOrderValue then
    .error "Minimum order value required"
  else
    match coupon.discountType with
    | .percentage => .ok (appTotal * coupon.discountValue / 100)
    | .fixed => .ok (if coupon.discountValue > appTotal then appTotal else coupon.discountValue)

/-- A 10-percent coupon on everything with no minimum. -/
def previewCoupon : Coupon :=
  { id := 8, shopId := 1, discountType := .percentage, discountValue := 10,
    applicability := .all, categoryId := none, productId := none,
    minOrderValue := 0 }

/-- A client cart entry claiming price 100 for `priceProduct`, whose stored
`display_price` is 110. -/
def clientItem : ValidateCartItem := { productId := 1, quantity := 1, price := 100 }

/-- The same logical cart as `clientItem` in `create_order` form. -/
def serverCart : List CartItem :=
  [{ productId := 1, quantity := 1, size := none, color := none }]

/-- The order `create_order` persists for `serverCart` with `previewCoupon`:
subtotal 110, COD fee 50, discount 11 (10 percent of the stored 110),
total 149. -/
def previewOrder : PersistedOrder :=
  { subtotal := 110, codFee := 50, couponDiscountAmount := 11,
    totalAmount := 149, commissionAmount := 10, sellerPayoutAmount := 100 }

/-- Claim C10: `validate_coupon` computes the preview from the client-supplied
`price` field, so for a cart whose supplied price 100 differs from the stored
`display_price` 110, the previewed discount (10) differs from the discount
`create_order` computes for the same cart and coupon (11). -/
theorem validate_coupon_uses_client_price :
    validate_coupon priceCatalog previewCoupon [clientItem] = .ok 10 ∧
    create_order priceCatalog serverCart (some previewCoupon) =
      .ok (previewOrder, [scopeItemA]) ∧
    clientItem.price ≠ priceProduct.displayPrice ∧
    previewOrder.couponDiscountAmount ≠ (10 : Rat) := by
  refine ⟨?_, ?_, ?_, ?_⟩ <;>
    norm_num [validate_coupon, validateApplicableTotal, findProduct,
      couponItemApplicable, create_order, calculate_order_totals, calcLoop,
      calcItem, findActiveProduct, mkBreakdown, persistOrder, couponDiscount,
      applicableTotal, itemApplicableB, priceCatalog, priceProduct,
      previewCoupon, clientItem, serverCart, previewOrder, scopeItemA,
      List.find?]

/-- The observable database state during a cancellation: the store rows and the
order row's persisted status. -/
structure CancelDbState where
  store : StoreState
  orderStatus : OrderStatus

/-- The stock-credit save issued for one item of a cancelled order. -/
def stockCreditWrite (it : OrderItemRec) : CancelDbState → CancelDbState :=
  fun s => { s with store := creditItem s.store it }

/-- The coupon-counter save issued when the cancelled order carried a coupon. -/
def couponDecrementWrites : Option Nat → List (CancelDbState → CancelDbState)
  | some cid => [fun s => { s with store := decrementCoupon s.store (some cid) }]
  | none => []

/-- The final `order.save()` persisting the `cancelled` status. -/
def orderCancelWrite : CancelDbState → CancelDbState :=
  fun s => { s with orderStatus := OrderStatus.cancelled }

/-- The sequence of row writes the cancellation path of `update_order_status` /
`cancel_customer_order` issues, in program order: one stock-credit save per
item, the coupon-counter save when a coupon was carried, and finally
`order.save()` persisting the `cancelled` status. -/
def cancellationWrites (o : OrderRec) : List (CancelDbState → CancelDbState) :=
  o.items.map stockCreditWrite ++ couponDecrementWrites o.couponId ++
    [orderCancelWrite]

/-- Run a write list to completion. -/
def runWrites {α : Type} (ws : List (α → α)) (s : α) : α :=
  ws.foldl (fun t w => w t) s

/-- A failure after `k` writes issued in autocommit mode: with no enclosing
transaction each completed write is already committed, so the first `k` writes
stay observable.  `update_order_status` and `cancel_customer_order`
(`orders/views.py`) issue their writes in this mode — no `transaction.atomic`
block wraps them. -/
def runAutocommitFail {α : Type} (ws : List (α → α)) (k : Nat) (s : α) : α :=
  runWrites (ws.take k) s

/-- A failure after `k < ws.length` writes issued inside a transaction: the
transaction rolls back and the initial state stays observable.  `create_order`
(`orders/views.py`) issues its writes inside `with transaction.atomic()`. -/
def runAtomicFail {α : Type} (ws : List (α → α)) (k : Nat) (s : α) : α :=
  if k < ws.length then s else runWrites ws s

/-- The database before cancelling `placedOrder`: all counters zero, order
status `placed`. -/
def cancelInit : CancelDbState := { store := emptyStore, orderStatus := .placed }

/-- The committed state when the write following the first stock credit of the
cancellation fails. -/
def midCancelState : CancelDbState :=
  runAutocommitFail (cancellationWrites placedOrder) 1 cancelInit

/-- Claim C4 fails on the code: only `create_order` wraps its writes in
`transaction.atomic`; the status-transition and cancellation handlers do not.
Cancelling the two-item `placedOrder` with a failure after the first stock
write leaves a committed partial state — the first item's stock credited, the
second item's stock and the coupon counter untouched, the order still
`placed` — which is neither the initial nor the final state; the same failure
point under the atomic-wrapped semantics used by `create_order` would leave the
initial state. -/
theorem cancellation_not_atomic :
    midCancelState.store.variantStock 1 = 2 ∧
    midCancelState.store.productStock 2 = 0 ∧
    midCancelState.store.couponUses 7 = 0 ∧
    midCancelState.orderStatus = .placed ∧
    (runWrites (cancellationWrites placedOrder) cancelInit).store.variantStock 1 = 2 ∧
    (runWrites (cancellationWrites placedOrder) cancelInit).store.productStock 2 = 1 ∧
    (runWrites (cancellationWrites placedOrder) cancelInit).store.couponUses 7 = -1 ∧
    (runWrites (cancellationWrites placedOrder) cancelInit).orderStatus = .cancelled ∧
    runAtomicFail (cancellationWrites placedOrder) 1 cancelInit = cancelInit := by
  refine ⟨?_, ?_, ?_, ?_, ?_, ?_, ?_, ?_, ?_⟩ <;> rfl

/-- The per-request state of one `create_order` worker debiting a shared
variant row, as the code sequences its accesses: `pc = 0` before the stock
check of `calculate_order_totals` (`orders/utils.py`), `pc = 1` before the
re-fetch `ProductVariant.objects.get(...)` of `create_order`
(`orders/views.py`), `pc = 2` before computing and writing
`stock_quantity - quantity`, `pc = 3` done. -/
structure Worker where
  qty : Nat
  pc : Nat
  saved : Nat
  failed : Bool
  deriving DecidableEq, Repr

/-- One database access of a worker against the shared stock value.  The check
reads the committed stock; the re-fetch reads it again; the write stores
`saved - qty` computed from the value read at re-fetch time.  No step takes a
row lock: the source uses neither `select_for_update` nor a conditional
`F`-expression decrement, so under read-committed isolation another worker's
accesses may interleave between any two steps. -/
def workerStep (stock : Nat) (w : Worker) : Nat × Worker :=
  match w.pc with
  | 0 =>
    if stock < w.qty then (stock, { w with failed := true, pc := 3 })
    else (stock, { w with pc := 1 })
  | 1 => (stock, { w with saved := stock, pc := 2 })
  | 2 => (w.saved - w.qty, { w with pc := 3 })
  | _ => (stock, w)

/-- Which of the two concurrent workers acts next. -/
inductive Who where
  | A
  | B
  deriving DecidableEq, Repr

/-- Run an interleaving of the two workers' accesses over the shared stock. -/
def runSchedule : List Who → Nat → Worker → Worker → Nat × Worker × Worker
  | [], stock, a, b => (stock, a, b)
  | .A :: rest, stock, a, b =>
    let x := workerStep stock a
    runSchedule rest x.1 x.2 b
  | .B :: rest, stock, a, b =>
    let x := workerStep stock b
    runSchedule rest x.1 a x.2

/-- A worker that completed all its steps without hitting the stock check. -/
def succeeded (w : Worker) : Bool := w.pc == 3 && !w.failed

/-- A fresh worker requesting one unit. -/
def oneUnitWorker : Worker := { qty := 1, pc := 0, saved := 0, failed := false }

/-- Claim C8 fails on the code: with one unit in stock and two concurrent
one-unit orders, the interleaving check-A, check-B, refetch-A, refetch-B,
write-A, write-B — admissible because no step locks the row — lets both
workers pass the stock check and both commit, a lost update selling two units
from a stock of one; serial execution instead gives exactly one success.  The
claimed exactly-one-succeeds guarantee is not established by the code. -/
theorem concurrent_last_unit_oversell :
    (succeeded (runSchedule [.A, .B, .A, .B, .A, .B] 1 oneUnitWorker oneUnitWorker).2.1 = true ∧
     succeeded (runSchedule [.A, .B, .A, .B, .A, .B] 1 oneUnitWorker oneUnitWorker).2.2 = true ∧
     (runSchedule [.A, .B, .A, .B, .A, .B] 1 oneUnitWorker oneUnitWorker).1 = 0) ∧
    (succeeded (runSchedule [.A, .A, .A, .B, .B, .B] 1 oneUnitWorker oneUnitWorker).2.1 = true ∧
     (runSchedule [.A, .A, .A, .B, .B, .B] 1 oneUnitWorker oneUnitWorker).2.2.failed = true) := by
  decide

/-- A row of the `reviews` table (`Review` in `reviews/models.py`), restricted
to the fields `create_review` reads and writes. -/
structure ReviewRec where
  productId : Nat
  orderId : Nat
  customerId : Nat
  rating : Nat
  deriving DecidableEq, Repr

/-- The tables `create_review` touches: products (for the rating aggregate)
and reviews. -/
structure ReviewDb where
  products : List Product
  reviews : List ReviewRec
  deriving DecidableEq, Repr

/-- The distinct rejection reasons of `create_review` (`reviews/views.py`; the
rating bound is checked by `ReviewCreateSerializer.validate_rating`). -/
inductive ReviewError where
  | invalidRating
  | notOwner
  | orderNotDelivered
  | productNotInOrder
  | duplicateReview
  deriving DecidableEq, Repr

/-- `Review.update_product_rating` from `reviews/models.py`: aggregate average
and count over all of the product's reviews (`Avg` of no rows is null, hence
the `or 0` fallback) and persist them on the product row. -/
def update_product_rating (db : ReviewDb) (pid : Nat) : ReviewDb :=
  let rs := db.reviews.filter (fun r => r.productId == pid)
  let cnt := rs.length
  let avg : Rat :=
    if cnt = 0 then 0 else ((rs.map (fun r => (r.rating : Rat))).sum) / (cnt : Rat)
  { db with products := db.products.map (fun p =>
      if p.id == pid then { p with averageRating := avg, reviewCount := cnt }
      else p) }

/-- The duplicate check of `create_review`:
`Review.objects.filter(product=product, order=order, customer=request.user).exists()`. -/
def duplicateReviewExists (db : ReviewDb) (o : OrderRec) (pid uid : Nat) : Bool :=
  db.reviews.any (fun r =>
    r.productId == pid && r.orderId == o.number && r.customerId == uid)

/-- `create_review` from `reviews/views.py`, applied to the serializer-resolved
order: rating bounds (serializer), then ownership, delivery status, product
presence in the order, and the duplicate check, in that sequence; on success
the review row is inserted and `Review.save` triggers
`update_product_rating`. -/
def create_review (db : ReviewDb) (o : OrderRec) (pid uid rating : Nat) :
    Except ReviewError ReviewDb :=
  if rating < 1 ∨ 5 < rating then .error .invalidRating
  else if o.customerId ≠ uid then .error .notOwner
  else if o.status ≠ .delivered then .error .orderNotDelivered
  else if ¬ (o.items.any (fun it => it.productId == some pid) = true) then
    .error .productNotInOrder
  else if duplicateReviewExists db o pid uid = true then .error .duplicateReview
  else
    update_product_rating
      { db with reviews := db.reviews ++ [⟨pid, o.number, uid, rating⟩] } pid
      |> .ok

/-- Claim C9: `create_review` succeeds exactly when the order belongs to the
requesting customer, is delivered, contains the product, and no duplicate
review exists — failing with the respective error otherwise, each rejection
returning before any write; on success the review row is appended and the
product's `average_rating` and `review_count` become the simple mean and count
over all of that product's reviews. -/
theorem create_review_spec (db : ReviewDb) (o : OrderRec) (pid uid rating : Nat)
    (hr : 1 ≤ rating ∧ rating ≤ 5) :
    ((create_review db o pid uid rating).isOk = true ↔
      (o.customerId = uid ∧ o.status = .delivered ∧
        o.items.any (fun it => it.productId == some pid) = true ∧
        duplicateReviewExists db o pid uid = false)) ∧
    (o.customerId ≠ uid →
      create_review db o pid uid rating = .error .notOwner) ∧
    (o.customerId = uid → o.status ≠ .delivered →
      create_review db o pid uid rating = .error .orderNotDelivered) ∧
    (o.customerId = uid → o.status = .delivered →
      ¬ (o.items.any (fun it => it.productId == some pid) = true) →
      create_review db o pid uid rating = .error .productNotInOrder) ∧
    (o.customerId = uid → o.status = .delivered →
      o.items.any (fun it => it.productId == some pid) = true →
      duplicateReviewExists db o pid uid = true →
      create_review db o pid uid rating = .error .duplicateReview) ∧
    (∀ db2, create_review db o pid uid rating = .ok db2 →
      db2.reviews = db.reviews ++ [⟨pid, o.number, uid, rating⟩] ∧
      ∀ p ∈ db2.products, p.id = pid →
        p.reviewCount = (db2.reviews.filter (fun r => r.productId == pid)).length ∧
        p.averageRating =
          ((db2.reviews.filter (fun r => r.productId == pid)).map
            (fun r => (r.rating : Rat))).sum /
          (((db2.reviews.filter (fun r => r.productId == pid)).length : Nat) : Rat)) := by
  have hne : ¬ rating = 0 := by omega
  have hlt : ¬ 5 < rating := by omega
  refine ⟨?_, ?_, ?_, ?_, ?_, ?_⟩
  · by_cases h1 : o.customerId = uid <;>
      by_cases h2 : o.status = OrderStatus.delivered <;>
      by_cases h3 : o.items.any (fun it => it.productId == some pid) = true <;>
      by_cases h4 : duplicateReviewExists db o pid uid = true <;>
      simp [create_review, hne, hlt, h1, h2, h3, h4, Except.isOk, Except.toBool]
  · intro h1; simp [create_review, hne, hlt, h1]
  · intro h1 h2; simp [create_review, hne, hlt, h1, h2]
  · intro h1 h2 h3; simp [create_review, hne, hlt, h1, h2, h3]
  · intro h1 h2 h3 h4; simp [create_review, hne, hlt, h1, h2, h3, h4]
  · intro db2 hdb2
    by_cases h1 : o.customerId = uid
    · by_cases h2 : o.status = OrderStatus.delivered
      · by_cases h3 : o.items.any (fun it => it.productId == some pid) = true
        · by_cases h4 : duplicateReviewExists db o pid uid = true
          · simp [create_review, hne, hlt, h1, h2, h3, h4] at hdb2
          · rw [show create_review db o pid uid rating =
                .ok (update_product_rating
                  { db with reviews :=
                      db.reviews ++ [⟨pid, o.number, uid, rating⟩] } pid) by
                simp [create_review, hne, hlt, h1, h2, h3, h4]] at hdb2
            simp only [Except.ok.injEq] at hdb2
            subst hdb2
            constructor
            · rfl
            · intro p hp hpid
              simp only [update_product_rating, List.mem_map] at hp
              obtain ⟨q, hq, rfl⟩ := hp
              by_cases hqid : q.id == pid
              · have hcnt :
                    (((db.reviews ++ [(⟨pid, o.number, uid, rating⟩ : ReviewRec)]).filter
                      (fun r => r.productId == pid)).length) ≠ 0 := by
                  simp [List.filter_append]
                simp only [hqid, if_true, update_product_rating]
                refine ⟨?_, ?_⟩ <;> simp [if_neg hcnt]
              · exfalso
                simp only [hqid, if_false] at hpid
                exact absurd (beq_iff_eq.mpr hpid) (by simpa using hqid)
        · simp [create_review, hne, hlt, h1, h2, h3] at hdb2
      · simp [create_review, hne, hlt, h1, h2] at hdb2
    · simp [create_review, hne, hlt, h1] at hdb2

/-- A delivered one-item order of customer 3 containing product 1. -/
def deliveredOrder : OrderRec :=
  { number := 5, customerId := 3, shopId := 1, status := .delivered,
    couponId := none,
    items := [{ productId := some 1, variantId := none, quantity := 1 }] }

/-- A review database holding `priceProduct` and no reviews yet. -/
def reviewDb0 : ReviewDb := { products := [priceProduct], reviews := [] }

/-- Witness for `create_review_spec`: customer 3 reviewing product 1 of the
delivered order with rating 4 is accepted exactly when the four conditions
hold. -/
theorem create_review_spec_witness :
    (create_review reviewDb0 deliveredOrder 1 3 4).isOk = true ↔
      (deliveredOrder.customerId = 3 ∧ deliveredOrder.status = .delivered ∧
        deliveredOrder.items.any (fun it => it.productId == some 1) = true ∧
        duplicateReviewExists reviewDb0 deliveredOrder 1 3 = false) :=
  (create_review_spec reviewDb0 deliveredOrder 1 3 4 (by omega)).1

end AmravatiWears
